import Mathlib

/-!
Shallow embedding of `notification_service/whatsapp_bridge.js` (Victor Springs
WhatsApp relay bridge) and proofs of the specification's claims about it.

The embedding translates the JavaScript source directly:
string operations become Lean `String` operations, JavaScript object lookup
and assignment on `messageMap` become operations on an association list with
unique keys, optional chaining (`?.`) becomes `Option.bind`, and JavaScript
truthiness of strings (`""` is falsy) is made explicit.
-/

namespace VSBridge

/-- Translation of JavaScript `s.startsWith(p)` for the one-character
prefixes used by the source (`"0"` and `"+"`): true iff the first character
of `s` is `c`. -/
def jsStartsWith1 (s : String) (c : Char) : Bool :=
  s.data.head? == some c

/-- Translation of JavaScript `s.slice(1)`: drop the first character.
All characters the source slices are single UTF-16 code units. -/
def jsSlice1 (s : String) : String :=
  String.mk (s.data.drop 1)

/-- JavaScript truthiness filter for an optional string: `undefined` and the
empty string are falsy, any other string is truthy.  Used to translate the
`a || b || ""` chains and the `if (quoteId && messageMap[quoteId])` guard. -/
def truthyStr (o : Option String) : Option String :=
  match o with
  | some s => if s = "" then none else some s
  | none => none

/-- Phone formatting from `app.post("/send-whatsapp")`:
`phone.startsWith("0") ? "254" + phone.slice(1) : phone.startsWith("+") ?
phone.slice(1) : phone`. -/
def formatPhone (phone : String) : String :=
  if jsStartsWith1 phone '0' then "254" ++ jsSlice1 phone
  else if jsStartsWith1 phone '+' then jsSlice1 phone
  else phone

/-- The full normalized channel address: `formattedPhone + "@s.whatsapp.net"`. -/
def normalizeAddress (phone : String) : String :=
  formatPhone phone ++ "@s.whatsapp.net"

/-- Startup derivation of `adminPhone` from `process.env.ADMIN_WHATSAPP_NUMBER`:
when the variable is truthy, strip a leading `+` (if any) and append
`"@s.whatsapp.net"`; when unset (or empty, hence falsy) use the fixed
fallback `"254754096684@s.whatsapp.net"`. -/
def adminPhoneOf (env : Option String) : String :=
  match env with
  | some e =>
    if e = "" then "254754096684@s.whatsapp.net"
    else (if jsStartsWith1 e '+' then jsSlice1 e else e) ++ "@s.whatsapp.net"
  | none => "254754096684@s.whatsapp.net"

/-!
The correlation store `messageMap` is a JavaScript object mapping a WhatsApp
message id to a web socket id.  We embed it as an association list with the
object's semantics: lookup finds the (unique) entry for a key, assignment
overwrites in place or appends, and the disconnect cleanup deletes every
entry whose value is the disconnecting socket id.
-/

/-- Lookup `messageMap[k]`: the value stored under key `k`, if any. -/
def resolve : List (String × String) → String → Option String
  | [], _ => none
  | (k', v) :: rest, k => if k' = k then some v else resolve rest k

/-- Assignment `messageMap[k] = v`: overwrite the entry for `k` in place if
present, else append a new entry (JavaScript object insertion order). -/
def record : List (String × String) → String → String → List (String × String)
  | [], k, v => [(k, v)]
  | (k', v') :: rest, k, v =>
    if k' = k then (k, v) :: rest else (k', v') :: record rest k v

/-- Disconnect cleanup: `Object.keys(messageMap).forEach(key => { if
(messageMap[key] === socket.id) delete messageMap[key] })` — remove every
entry whose value equals `sid`. -/
def purgeSession : List (String × String) → String → List (String × String)
  | [], _ => []
  | (k, v) :: rest, sid =>
    if v = sid then purgeSession rest sid else (k, v) :: purgeSession rest sid

/-!
Inbound WhatsApp message shapes, as accessed by the `messages.upsert`
handler: `msg.key.fromMe`, `msg.key.remoteJid`, `msg.message?.conversation`,
`msg.message?.extendedTextMessage?.text` and
`msg.message?.extendedTextMessage?.contextInfo?.stanzaId`.
-/

structure ContextInfo where
  stanzaId : Option String
deriving DecidableEq

structure ExtendedTextMessage where
  text : Option String
  contextInfo : Option ContextInfo
deriving DecidableEq

structure MessageContent where
  conversation : Option String
  extendedTextMessage : Option ExtendedTextMessage
deriving DecidableEq

structure MessageKey where
  fromMe : Bool
  remoteJid : String
deriving DecidableEq

structure WAMessage where
  key : MessageKey
  message : Option MessageContent
deriving DecidableEq

/-- Optional chain `msg.message?.extendedTextMessage?.contextInfo?.stanzaId`:
the id of the quoted message, when the inbound message carries quote
metadata. -/
def quotedIdOf (msg : WAMessage) : Option String :=
  ((msg.message.bind MessageContent.extendedTextMessage).bind
    ExtendedTextMessage.contextInfo).bind ContextInfo.stanzaId

/-- Text extraction `msg.message.conversation ||
msg.message.extendedTextMessage?.text || ""` (JavaScript `||` skips falsy
values, so an empty `conversation` falls through).  The handler only
evaluates this when quote metadata is present, hence `msg.message` exists;
the `none` case is unreachable there and yields `""`. -/
def extractText (msg : WAMessage) : String :=
  match msg.message with
  | none => ""
  | some mc =>
    match truthyStr mc.conversation with
    | some c => c
    | none =>
      match truthyStr (mc.extendedTextMessage.bind ExtendedTextMessage.text) with
      | some t => t
      | none => ""

/-- Events the bridge emits toward web sockets and the channel. -/
inductive Effect where
  | receiveMessage (socketId : String) (text : String) (fromTag : String)
  | errorEvent (socketId : String) (message : String)
  | channelSend (address : String) (text : String)
deriving DecidableEq

/-- The `messages.upsert` handler, for one inbound message (the source reads
`m.messages[0]`): if the message is not self-authored and comes from the
admin chat, and it quotes an id (`quoteId` truthy) that is mapped in
`messageMap` to a (truthy) socket id, emit `receive_message` with the
extracted text, tagged `from: "Admin"`; otherwise emit nothing (the source
only logs a diagnostic). -/
def handleUpsert (adminPhone : String) (messageMap : List (String × String))
    (msg : WAMessage) : Option Effect :=
  if msg.key.fromMe = false ∧ msg.key.remoteJid = adminPhone then
    match truthyStr (quotedIdOf msg) with
    | some quoteId =>
      match truthyStr (resolve messageMap quoteId) with
      | some targetSocketId =>
        some (Effect.receiveMessage targetSocketId (extractText msg) "Admin")
      | none => none
    | none => none
  else none

/-- Events driving the socket.io side of the bridge.  A `sendMessage` event
carries the outcome of `sock.sendMessage(adminPhone, ...)`: `some msgId`
when the send succeeded and returned a channel-assigned message id
(`sentMsg.key.id`), `none` when it threw. -/
inductive BridgeEvent where
  | sendMessage (socketId : String) (text : String) (result : Option String)
  | upsert (msg : WAMessage)
  | disconnect (socketId : String)

/-- One step of the bridge: the new `messageMap` and the list of emitted
effects.
For `send_message`: on success the composed banner message goes to the admin
and `messageMap[sentMsg.key.id] = socket.id` is recorded; on failure the
store is untouched and `socket.emit("error", ...)` fires.
For `messages.upsert`: the store is only read, never written.
For `disconnect`: entries of the disconnecting socket are purged. -/
def stepBridge (adminPhone : String) (messageMap : List (String × String)) :
    BridgeEvent → List (String × String) × List Effect
  | BridgeEvent.sendMessage socketId text result =>
    match result with
    | some msgId =>
      (record messageMap msgId socketId,
        [Effect.channelSend adminPhone ("👤 *New Website Guest*\n" ++ text)])
    | none =>
      (messageMap,
        [Effect.errorEvent socketId "Failed to send message. Please try again."])
  | BridgeEvent.upsert msg =>
    match handleUpsert adminPhone messageMap msg with
    | some eff => (messageMap, [eff])
    | none => (messageMap, [])
  | BridgeEvent.disconnect socketId => (purgeSession messageMap socketId, [])

/-- Run a list of bridge events in order, collecting all effects. -/
def runEvents (adminPhone : String) (messageMap : List (String × String)) :
    List BridgeEvent → List (String × String) × List Effect
  | [] => (messageMap, [])
  | e :: es =>
    let r := stepBridge adminPhone messageMap e
    let r2 := runEvents adminPhone r.1 es
    (r2.1, r.2 ++ r2.2)

/-- Baileys `DisconnectReason.loggedOut` status code. -/
def DisconnectReason.loggedOut : Nat := 401

/-- Effects the `connection.update` close branch can perform.  The
`fatalConfigError` constructor is the action the specification demands on a
logged-out closure (surface a fatal configuration error); the handler
defined below, translated from the source, never emits it. -/
inductive CloseEffect where
  | log (message : String) (shouldReconnect : Bool)
  | restart
  | fatalConfigError
deriving DecidableEq

/-- The `connection === "close"` branch of the `connection.update` handler:
compute `shouldReconnect = statusCode !== DisconnectReason.loggedOut`, log
it, and call `startWhatsApp()` again iff it holds.  `statusCode` is the
optional chain `lastDisconnect.error?.output?.statusCode`. -/
def handleConnectionClose (statusCode : Option Nat) : List CloseEffect :=
  let shouldReconnect : Bool := statusCode != some DisconnectReason.loggedOut
  CloseEffect.log "Connection closed. Reconnecting..." shouldReconnect ::
    (if shouldReconnect then [CloseEffect.restart] else [])

/-- Response body shape of the `/send-whatsapp` endpoint. -/
structure RespBody where
  status : String
  method : String
  error : Option String
deriving DecidableEq

/-- An HTTP response: status code plus JSON body. -/
structure HttpResponse where
  statusCode : Nat
  body : RespBody
deriving DecidableEq

/-- Outcome of one `/send-whatsapp` request.  `uncaughtThrow` models an
exception escaping the handler: `phone.startsWith("0")` is evaluated before
the `try` block, so when the body has no string `phone` the `TypeError`
propagates uncaught and none of the handler's own responses is sent. -/
inductive HandlerOutcome where
  | response (r : HttpResponse)
  | uncaughtThrow
deriving DecidableEq

/-- The `/send-whatsapp` route: given the request's optional `phone` field,
its `message`, and the outcome of `sock.sendMessage` (which carries
`error.message` on failure), produce the handler outcome together with the
send request `(address, text)` issued to the channel (in both branches the
send was attempted with the normalized address before the outcome is
known). -/
def sendWhatsappRoute (phone : Option String) (message : String)
    (sendResult : Except String Unit) :
    HandlerOutcome × Option (String × String) :=
  match phone with
  | none => (HandlerOutcome.uncaughtThrow, none)
  | some p =>
    let id := normalizeAddress p
    match sendResult with
    | Except.ok _ =>
      (HandlerOutcome.response ⟨200, ⟨"success", "whatsapp", none⟩⟩,
        some (id, message))
    | Except.error e =>
      (HandlerOutcome.response ⟨500, ⟨"error", "whatsapp", some e⟩⟩,
        some (id, message))

end VSBridge

namespace VSBridge

/-! Helper lemmas (shared). -/

theorem data_zero_append (r : String) : ("0" ++ r).data = '0' :: r.data := by
  rw [String.data_append]; rfl

theorem data_plus_append (r : String) : ("+" ++ r).data = '+' :: r.data := by
  rw [String.data_append]; rfl

theorem jsSlice1_zero_append (r : String) : jsSlice1 ("0" ++ r) = r := by
  apply String.ext; simp [jsSlice1, data_zero_append]

theorem jsSlice1_plus_append (r : String) : jsSlice1 ("+" ++ r) = r := by
  apply String.ext; simp [jsSlice1, data_plus_append]

theorem ne_empty_of_data_cons {s : String} {c : Char} {l : List Char}
    (h : s.data = c :: l) : s ≠ "" := by
  intro he
  rw [he] at h
  exact absurd h (by simp)

theorem resolve_eq_none_of_not_mem (m : List (String × String)) (k : String)
    (h : k ∉ m.map Prod.fst) : resolve m k = none := by
  induction m with
  | nil => rfl
  | cons hd tl ih =>
    obtain ⟨k', v⟩ := hd
    simp only [List.map_cons, List.mem_cons, not_or] at h
    obtain ⟨hk, htl⟩ := h
    simp [resolve, Ne.symm hk, ih htl]

theorem mem_keys_of_mem_keys_purge {m : List (String × String)} {S k : String}
    (h : k ∈ (purgeSession m S).map Prod.fst) : k ∈ m.map Prod.fst := by
  induction m with
  | nil => simp [purgeSession] at h
  | cons hd tl ih =>
    obtain ⟨k', v⟩ := hd
    by_cases hv : v = S
    · simp only [purgeSession, if_pos hv] at h
      simp [List.map_cons, ih h]
    · simp only [purgeSession, if_neg hv, List.map_cons, List.mem_cons] at h
      rcases h with h | h
      · simp [h]
      · simp [List.map_cons, ih h]

end VSBridge

namespace VSBridge

/-- C3: after the disconnect purge for session `S`, `resolve` returns none
for every identifier currently mapped to `S`, and returns the same result as
before the purge for every other identifier (other sessions' identifiers and
unrecorded identifiers alike).  The store keys are unique, as they are for a
JavaScript object. -/
theorem purge_resolve_spec (m : List (String × String)) (S k : String)
    (hnd : (m.map Prod.fst).Nodup) :
    (resolve m k = some S → resolve (purgeSession m S) k = none) ∧
    (resolve m k ≠ some S → resolve (purgeSession m S) k = resolve m k) := by
  induction m with
  | nil => simp [resolve, purgeSession]
  | cons hd tl ih =>
    obtain ⟨k', v⟩ := hd
    simp only [List.map_cons, List.nodup_cons] at hnd
    obtain ⟨hk', hnd'⟩ := hnd
    by_cases hkk : k' = k
    · subst hkk
      constructor
      · intro hres
        simp [resolve] at hres
        subst hres
        simp only [purgeSession, if_pos rfl]
        exact
          resolve_eq_none_of_not_mem _ _ fun hmem =>
            hk' (mem_keys_of_mem_keys_purge hmem)
      · intro hres
        simp [resolve] at hres
        simp [purgeSession, hres, resolve]
    · have hres : resolve ((k', v) :: tl) k = resolve tl k := by
        simp [resolve, hkk]
      by_cases hv : v = S
      · simp only [purgeSession, if_pos hv, hres]
        exact (ih hnd')
      · simp only [purgeSession, if_neg hv, hres]
        have htl := ih hnd'
        constructor
        · intro h
          simp only [resolve, if_neg hkk]
          exact htl.1 h
        · intro h
          simp only [resolve, if_neg hkk]
          exact htl.2 h

/-- Witness for C3 on a concrete store. -/
theorem purge_resolve_spec_witness :
    resolve (purgeSession [("a", "s1"), ("b", "s2")] "s1") "a" = none ∧
    resolve (purgeSession [("a", "s1"), ("b", "s2")] "s1") "b" =
      resolve [("a", "s1"), ("b", "s2")] "b" :=
  ⟨(purge_resolve_spec [("a", "s1"), ("b", "s2")] "s1" "a" (by decide)).1 (by decide),
   (purge_resolve_spec [("a", "s1"), ("b", "s2")] "s1" "b" (by decide)).2 (by decide)⟩

/-- C4: when the connector send for a visitor `send_message` fails, the
bridge emits exactly one `error` event back to that visitor's socket and the
correlation store is unchanged. -/
theorem send_failure_error_no_record (adminPhone : String)
    (m : List (String × String)) (socketId text : String) :
    stepBridge adminPhone m (BridgeEvent.sendMessage socketId text none) =
      (m, [Effect.errorEvent socketId "Failed to send message. Please try again."]) :=
  rfl

/-- C8: processing an inbound operator message never changes the correlation
store, and replaying the same upsert event any number of times from the same
state yields the same state and the same delivery effects each time. -/
theorem upsert_frame_repeat (adminPhone : String) (m : List (String × String))
    (msg : WAMessage) (n : Nat) :
    (stepBridge adminPhone m (BridgeEvent.upsert msg)).1 = m ∧
    runEvents adminPhone m (List.replicate n (BridgeEvent.upsert msg)) =
      (m, (List.replicate n (stepBridge adminPhone m (BridgeEvent.upsert msg)).2).flatten) := by
  have hfst : (stepBridge adminPhone m (BridgeEvent.upsert msg)).1 = m := by
    cases h : handleUpsert adminPhone m msg <;> simp [stepBridge, h]
  refine ⟨hfst, ?_⟩
  induction n with
  | zero => simp [runEvents]
  | succ n ih =>
    rw [List.replicate_succ, List.replicate_succ]
    simp only [runEvents, List.flatten_cons]
    rw [hfst, ih]

end VSBridge

namespace VSBridge

/-- C6: address normalization replaces a single leading trunk digit
`"0"` by `"254"`, else strips a leading `"+"`, else passes the input
through, and always appends `"@s.whatsapp.net"`; in particular on the three
documented example inputs. -/
theorem normalizeAddress_spec :
    (∀ r : String, normalizeAddress ("0" ++ r) = "254" ++ r ++ "@s.whatsapp.net") ∧
    (∀ r : String, normalizeAddress ("+" ++ r) = r ++ "@s.whatsapp.net") ∧
    (∀ p : String, jsStartsWith1 p '0' = false → jsStartsWith1 p '+' = false →
      normalizeAddress p = p ++ "@s.whatsapp.net") ∧
    normalizeAddress "0712345678" = "254712345678@s.whatsapp.net" ∧
    normalizeAddress "+254712345678" = "254712345678@s.whatsapp.net" ∧
    normalizeAddress "254712345678" = "254712345678@s.whatsapp.net" := by
  refine ⟨?_, ?_, ?_, by decide, by decide, by decide⟩
  · intro r
    have h0 : jsStartsWith1 ("0" ++ r) '0' = true := by
      simp [jsStartsWith1, data_zero_append]
    simp [normalizeAddress, formatPhone, h0, jsSlice1_zero_append, String.append_assoc]
  · intro r
    have h0 : jsStartsWith1 ("+" ++ r) '0' = false := by
      simp [jsStartsWith1, data_plus_append]
    have hp : jsStartsWith1 ("+" ++ r) '+' = true := by
      simp [jsStartsWith1, data_plus_append]
    simp [normalizeAddress, formatPhone, h0, hp, jsSlice1_plus_append]
  · intro p h0 hp
    simp [normalizeAddress, formatPhone, h0, hp]

/-- Witness for C6 at a concrete pass-through input. -/
theorem normalizeAddress_spec_witness :
    normalizeAddress "254712345678" = "254712345678" ++ "@s.whatsapp.net" :=
  normalizeAddress_spec.2.2.1 "254712345678" (by decide) (by decide)

/-- C10: the operator address strips only a leading `+` and appends the
suffix, defaults to `"254754096684@s.whatsapp.net"` when the configuration
is unset, and never applies the trunk-prefix rule: a configured number
starting with `"0"` keeps its leading `"0"` and differs from what the
address normalizer would produce for the same input. -/
theorem adminPhoneOf_spec :
    adminPhoneOf none = "254754096684@s.whatsapp.net" ∧
    (∀ r : String, adminPhoneOf (some ("+" ++ r)) = r ++ "@s.whatsapp.net") ∧
    (∀ e : String, e ≠ "" → jsStartsWith1 e '+' = false →
      adminPhoneOf (some e) = e ++ "@s.whatsapp.net") ∧
    (∀ r : String,
      adminPhoneOf (some ("0" ++ r)) = ("0" ++ r) ++ "@s.whatsapp.net" ∧
      adminPhoneOf (some ("0" ++ r)) ≠ normalizeAddress ("0" ++ r)) := by
  refine ⟨rfl, ?_, ?_, ?_⟩
  · intro r
    have hne : ("+" ++ r) ≠ "" := ne_empty_of_data_cons (data_plus_append r)
    have hp : jsStartsWith1 ("+" ++ r) '+' = true := by
      simp [jsStartsWith1, data_plus_append]
    simp [adminPhoneOf, hne, hp, jsSlice1_plus_append]
  · intro e he hp
    simp [adminPhoneOf, he, hp]
  · intro r
    have hne : ("0" ++ r) ≠ "" := ne_empty_of_data_cons (data_zero_append r)
    have hp : jsStartsWith1 ("0" ++ r) '+' = false := by
      simp [jsStartsWith1, data_zero_append]
    have h0 : jsStartsWith1 ("0" ++ r) '0' = true := by
      simp [jsStartsWith1, data_zero_append]
    have hval : adminPhoneOf (some ("0" ++ r)) = ("0" ++ r) ++ "@s.whatsapp.net" := by
      simp [adminPhoneOf, hne, hp]
    refine ⟨hval, ?_⟩
    intro hcontra
    have hnorm : normalizeAddress ("0" ++ r) =
        ("254" ++ jsSlice1 ("0" ++ r)) ++ "@s.whatsapp.net" := by
      simp [normalizeAddress, formatPhone, h0]
    rw [hval, hnorm, jsSlice1_zero_append] at hcontra
    have hd := congrArg String.data hcontra
    simp only [String.data_append] at hd
    simp only [List.cons_append, List.nil_append] at hd
    injection hd with h1 _
    exact absurd h1 (by decide)

/-- Witness for C10 at a concrete configured number without `+`. -/
theorem adminPhoneOf_spec_witness :
    adminPhoneOf (some "254700000001") = "254700000001" ++ "@s.whatsapp.net" :=
  adminPhoneOf_spec.2.2.1 "254700000001" (by decide) (by decide)

end VSBridge

namespace VSBridge

/-- C7: the `/send-whatsapp` handler responds with status 200 and body
`{status: "success", method: "whatsapp"}` when the connector send succeeds,
and with status 500 and body `{status: "error", method: "whatsapp", error}`
when it fails; in both branches the send was issued with the message text to
the normalized address. -/
theorem sendWhatsapp_response_spec (p message e : String) :
    sendWhatsappRoute (some p) message (Except.ok ()) =
      (HandlerOutcome.response ⟨200, ⟨"success", "whatsapp", none⟩⟩,
        some (normalizeAddress p, message)) ∧
    sendWhatsappRoute (some p) message (Except.error e) =
      (HandlerOutcome.response ⟨500, ⟨"error", "whatsapp", some e⟩⟩,
        some (normalizeAddress p, message)) :=
  ⟨rfl, rfl⟩

/-- C9: when the request body has no string `phone`, the handler throws
before the `try` block and produces neither of the documented JSON
responses; the documented error body is only reachable with `phone` present
and the connector send failing. -/
theorem missing_phone_uncaught (message : String) (sendResult : Except String Unit) :
    sendWhatsappRoute none message sendResult = (HandlerOutcome.uncaughtThrow, none) ∧
    (∀ r : HttpResponse,
      (sendWhatsappRoute none message sendResult).1 ≠ HandlerOutcome.response r) ∧
    (∀ (phone : Option String) (r : HttpResponse),
      (sendWhatsappRoute phone message sendResult).1 = HandlerOutcome.response r →
      r.body.status = "error" →
      ∃ p e, phone = some p ∧ sendResult = Except.error e ∧
        r.statusCode = 500 ∧ r.body.error = some e) := by
  refine ⟨rfl, by simp [sendWhatsappRoute], ?_⟩
  intro phone r hresp hstatus
  match phone with
  | none => simp [sendWhatsappRoute] at hresp
  | some p =>
    match sendResult with
    | Except.ok _ =>
      simp only [sendWhatsappRoute, HandlerOutcome.response.injEq] at hresp
      rw [← hresp] at hstatus
      exact absurd hstatus (by decide)
    | Except.error e =>
      simp only [sendWhatsappRoute, HandlerOutcome.response.injEq] at hresp
      exact ⟨p, e, rfl, rfl, by rw [← hresp], by rw [← hresp]⟩

/-- Witness for C9: the documented error body at a concrete failing input. -/
theorem missing_phone_uncaught_witness :
    ∃ p e, (some "0712" : Option String) = some p ∧
      (Except.error "boom" : Except String Unit) = Except.error e ∧
      (HttpResponse.mk 500 ⟨"error", "whatsapp", some "boom"⟩).statusCode = 500 ∧
      (HttpResponse.mk 500 ⟨"error", "whatsapp", some "boom"⟩).body.error = some e :=
  (missing_phone_uncaught "m" (Except.error "boom")).2.2 (some "0712")
    (HttpResponse.mk 500 ⟨"error", "whatsapp", some "boom"⟩) (by decide) (by decide)

/-- C5 counterexample: on a logged-out closure the handler only logs the
diagnostic (with `shouldReconnect = false`) and performs nothing else — in
particular it surfaces no fatal configuration error. -/
theorem close_loggedOut_silent :
    handleConnectionClose (some DisconnectReason.loggedOut) =
      [CloseEffect.log "Connection closed. Reconnecting..." false] ∧
    CloseEffect.fatalConfigError ∉
      handleConnectionClose (some DisconnectReason.loggedOut) := by
  decide

/-- C5 amended: the bridge restarts the connector iff the closure status
code is not the logged-out reason; on a logged-out closure it merely stops
(no restart), and in no case does it surface a fatal configuration error. -/
theorem reconnect_iff_not_loggedOut (statusCode : Option Nat) :
    (CloseEffect.restart ∈ handleConnectionClose statusCode ↔
      statusCode ≠ some DisconnectReason.loggedOut) ∧
    CloseEffect.fatalConfigError ∉ handleConnectionClose statusCode := by
  by_cases h : statusCode = some DisconnectReason.loggedOut
  · subst h
    decide
  · have hb : (statusCode != some DisconnectReason.loggedOut) = true := by
      simp [bne_iff_ne, h]
    simp [handleConnectionClose, hb, h]

/-- Witness for C5's amended statement at concrete closure reasons. -/
theorem reconnect_iff_not_loggedOut_witness :
    CloseEffect.restart ∈ handleConnectionClose none ∧
    CloseEffect.fatalConfigError ∉ handleConnectionClose (some 401) :=
  ⟨(reconnect_iff_not_loggedOut none).1.mpr (by decide),
   (reconnect_iff_not_loggedOut (some 401)).2⟩

end VSBridge

namespace VSBridge

/-- C1: an inbound message that is not self-authored, originates from the
operator chat, and quotes a (nonempty) id currently mapped to a (nonempty)
session socket id `sid` is delivered to `sid` as a `receive_message` tagged
`from: "Admin"`, carrying the message's own text unmodified — whether the
message is a plain `conversation` or an extended/quoted-text message. -/
theorem quoted_reply_delivery (adminPhone : String) (m : List (String × String))
    (msg : WAMessage) (q sid t : String)
    (hfm : msg.key.fromMe = false)
    (hjid : msg.key.remoteJid = adminPhone)
    (hq : quotedIdOf msg = some q) (hq0 : q ≠ "")
    (hres : resolve m q = some sid) (hs0 : sid ≠ "")
    (hshape :
      (∃ mc : MessageContent, msg.message = some mc ∧
        mc.conversation = some t ∧ t ≠ "") ∨
      (∃ mc : MessageContent, msg.message = some mc ∧
        truthyStr mc.conversation = none ∧
        mc.extendedTextMessage.bind ExtendedTextMessage.text = some t ∧ t ≠ "")) :
    handleUpsert adminPhone m msg = some (Effect.receiveMessage sid t "Admin") := by
  have hext : extractText msg = t := by
    rcases hshape with ⟨mc, hm, hc, ht⟩ | ⟨mc, hm, hc, he, ht⟩
    · simp [extractText, hm, hc, truthyStr, ht]
    · cases hcc : mc.conversation with
      | none => simp [extractText, hm, hcc, truthyStr, he, ht]
      | some c =>
        have hce : c = "" := by
          by_contra hne
          simp [truthyStr, hcc, hne] at hc
        subst hce
        simp [extractText, hm, hcc, truthyStr, he, ht]
  simp [handleUpsert, hfm, hjid, hq, truthyStr, hq0, hres, hs0, hext]

/-- Witness for C1: a concrete quoted plain-text reply routed to its
session. -/
theorem quoted_reply_delivery_witness :
    handleUpsert "254754096684@s.whatsapp.net" [("Q1", "sock1")]
        ⟨⟨false, "254754096684@s.whatsapp.net"⟩,
          some ⟨some "hello", some ⟨none, some ⟨some "Q1"⟩⟩⟩⟩ =
      some (Effect.receiveMessage "sock1" "hello" "Admin") :=
  quoted_reply_delivery "254754096684@s.whatsapp.net" [("Q1", "sock1")] _
    "Q1" "sock1" "hello" rfl rfl rfl (by decide) (by decide) (by decide)
    (Or.inl ⟨_, rfl, rfl, by decide⟩)

/-- C2: an inbound operator message that carries no quote metadata, or whose
quoted id resolves to no live correlation, changes nothing and emits no
event at all: the bridge silently drops it (the source only logs a
diagnostic). -/
theorem unroutable_reply_dropped (adminPhone : String)
    (m : List (String × String)) (msg : WAMessage)
    (hfm : msg.key.fromMe = false)
    (hjid : msg.key.remoteJid = adminPhone)
    (hnoroute : quotedIdOf msg = none ∨
      ∃ q, quotedIdOf msg = some q ∧ resolve m q = none) :
    stepBridge adminPhone m (BridgeEvent.upsert msg) = (m, []) := by
  have hnone : handleUpsert adminPhone m msg = none := by
    rcases hnoroute with h | ⟨q, hq, hr⟩
    · simp [handleUpsert, hfm, hjid, h, truthyStr]
    · by_cases hq0 : q = ""
      · subst hq0
        simp [handleUpsert, hfm, hjid, hq, truthyStr]
      · simp [handleUpsert, hfm, hjid, hq, truthyStr, hq0, hr]
  simp [stepBridge, hnone]

/-- Witness for C2: a concrete operator message without quote metadata is
dropped with the store untouched. -/
theorem unroutable_reply_dropped_witness :
    stepBridge "adm" [("Q1", "sock1")]
        (BridgeEvent.upsert ⟨⟨false, "adm"⟩, some ⟨some "yo", none⟩⟩) =
      ([("Q1", "sock1")], []) :=
  unroutable_reply_dropped "adm" [("Q1", "sock1")] _ rfl rfl (Or.inl (by decide))

end VSBridge
